import Mathlib

/-!
Shallow embedding of `events.py` (Tim Golden, 2003): a common event
interface with an in-process variant (`PythonEvent`, backed by Python's
`threading.Event`) and a system-wide named variant (`Win32Event`, backed by
`win32event`), plus the `EventHandler` dispatch thread and the module-level
`STOP_EVENT`.

Conventions of the embedding:
* Exceptions are values of `XEvent`; a call that can raise returns
  `Except XEvent α`.
* A call that can block forever returns `Option β`, with `none` for the
  call that never returns (no other thread fires the event during a wait).
* State is passed explicitly: an operation that can mutate the underlying
  object returns the new object state alongside its result.
* The platform primitives the source calls (`threading.Event`,
  `win32event.CreateEvent` / `SetEvent` / `PulseEvent` /
  `WaitForSingleObject`) are modelled by functions named after them,
  faithful to the platform semantics the source's docstrings rely on.
-/

/-- The exception hierarchy of the module: `x_event` together with its
subclasses `x_unimplemented`, `x_event_timeout`, `x_event_abandoned`. -/
inductive XEvent where
  | x_unimplemented
  | x_event_timeout
  | x_event_abandoned
deriving DecidableEq, Repr

/-! ## The in-process variant: `threading.Event` and `PythonEvent` -/

/-- State of a Python `threading.Event`: a single boolean flag,
manipulated by `set` / `clear` / `isSet` / `wait`. -/
structure ThreadingEvent where
  flag : Bool
deriving DecidableEq, Repr

/-- threading.Event.set: set the internal flag. -/
def ThreadingEvent.set (_ : ThreadingEvent) : ThreadingEvent := ⟨true⟩

/-- threading.Event.clear: reset the internal flag. -/
def ThreadingEvent.clear (_ : ThreadingEvent) : ThreadingEvent := ⟨false⟩

/-- threading.Event.isSet: return the internal flag. -/
def ThreadingEvent.isSet (e : ThreadingEvent) : Bool := e.flag

/-- threading.Event.wait in the Python 2.x versions contemporary with this
module (before 2.7): block while the flag is clear, up to `timeout` seconds
when one is given, and return `None` — the method has no return statement.
The `Option Bool` in the result is the Python return value (`none` is
Python's `None`); the outer `none` is the call that never returns, i.e. the
flag is clear and no timeout was given (no other thread sets the flag in
this single-threaded model). The flag itself is not changed by waiting. -/
def ThreadingEvent.wait (e : ThreadingEvent) (timeout : Option Nat) :
    Option (ThreadingEvent × Option Bool) :=
  if e.flag = false ∧ timeout = none then none
  else some (e, none)

/-- PythonEvent: a name plus a `threading.Event`.  The constructor's
`manual_reset` argument (Python default 0) is accepted and never used. -/
structure PythonEvent where
  name : String
  event : ThreadingEvent
deriving DecidableEq, Repr

/-- PythonEvent.__init__ (name, initial_state=0, manual_reset=0): stores the
name, creates a `threading.Event`, and sets or clears it according to
`initial_state`.  `manual_reset` is discarded. -/
def pythonEventNew (name : String) (initial_state : Bool)
    (manual_reset : Bool) : PythonEvent :=
  let _ := manual_reset
  let event : ThreadingEvent := ⟨false⟩
  { name := name
    event := if initial_state then event.set else event.clear }

/-- PythonEvent.set: `self.event.set ()`. -/
def PythonEvent.set (e : PythonEvent) : PythonEvent :=
  { e with event := e.event.set }

/-- PythonEvent.reset: `self.event.clear ()`. -/
def PythonEvent.reset (e : PythonEvent) : PythonEvent :=
  { e with event := e.event.clear }

/-- PythonEvent.pulse: `self.event.set ()` then `self.event.clear ()`. -/
def PythonEvent.pulse (e : PythonEvent) : PythonEvent :=
  let e1 := { e with event := e.event.set }
  { e1 with event := e1.event.clear }

/-- PythonEvent.is_set: `return self.event.isSet ()`. -/
def PythonEvent.is_set (e : PythonEvent) : Bool := e.event.isSet

/-- PythonEvent.wait (timeout_secs=None): raise `x_event_timeout` when
`self.event.wait (timeout_secs)` is `None`.  The outer `none` is the wait
that never returns. -/
def PythonEvent.wait (e : PythonEvent) (timeout_secs : Option Nat) :
    Option (Except XEvent Unit) :=
  (e.event.wait timeout_secs).map (fun r =>
    if r.2 = none then Except.error XEvent.x_event_timeout
    else Except.ok ())

/-! ### An interpreter for sequences of `PythonEvent` operations,
used to state observational properties of the in-process variant. -/

/-- One call through the `PythonEvent` interface. -/
inductive PyOp where
  | set
  | reset
  | pulse
  | is_set
  | wait (timeout_secs : Option Nat)
deriving DecidableEq, Repr

/-- What a caller observes from one `PythonEvent` call. -/
inductive PyObs where
  | ret_none
  | ret_bool (b : Bool)
  | raised (x : XEvent)
  | blocked
deriving DecidableEq, Repr

/-- Run one `PythonEvent` operation: the new event state and the caller's
observation. -/
def PythonEvent.step (e : PythonEvent) (op : PyOp) : PythonEvent × PyObs :=
  match op with
  | PyOp.set => (e.set, PyObs.ret_none)
  | PyOp.reset => (e.reset, PyObs.ret_none)
  | PyOp.pulse => (e.pulse, PyObs.ret_none)
  | PyOp.is_set => (e, PyObs.ret_bool e.is_set)
  | PyOp.wait t =>
    match e.wait t with
    | none => (e, PyObs.blocked)
    | some (Except.ok _) => (e, PyObs.ret_none)
    | some (Except.error x) => (e, PyObs.raised x)

/-- Run a sequence of `PythonEvent` operations, collecting the
observations; a call that blocks forever ends the run. -/
def PythonEvent.run (e : PythonEvent) : List PyOp → PythonEvent × List PyObs
  | [] => (e, [])
  | op :: rest =>
    let (e2, ob) := e.step op
    if ob = PyObs.blocked then (e2, [ob])
    else
      let (e3, obs) := e2.run rest
      (e3, ob :: obs)

/-! ## The named system-wide variant: `win32event` and `Win32Event` -/

/-- win32event.INFINITE, the sentinel timeout value (0xFFFFFFFF). -/
def INFINITE : Nat := 4294967295

/-- State of a Win32 kernel event object: the manual-reset flag fixed at
creation, and the current signaled state. -/
structure KEvent where
  manual_reset : Bool
  signaled : Bool
deriving DecidableEq, Repr

/-- Result codes of a Win32 wait. -/
inductive WaitResult where
  | wait_object_0
  | wait_timeout
  | wait_abandoned
deriving DecidableEq, Repr

/-- win32event.SetEvent: the event becomes signaled. -/
def SetEvent (ev : KEvent) : KEvent := { ev with signaled := true }

/-- win32event.PulseEvent: releases the threads blocked at the instant of
the call and leaves the event not-signaled; with no blocked threads the
event is simply not-signaled afterwards. -/
def PulseEvent (ev : KEvent) : KEvent := { ev with signaled := false }

/-- win32event.WaitForSingleObject on an event object, with no competing
thread acting on the event during the wait: a signaled event satisfies the
wait at once (and an auto-reset event reverts to not-signaled as a side
effect of releasing the waiter); otherwise the wait times out after
`timeout_ms` milliseconds, or never returns when `timeout_ms` is
`INFINITE`.  Event objects are never reported abandoned by the platform
(`wait_abandoned` concerns mutexes).  `none` is the call that never
returns. -/
def WaitForSingleObject (ev : KEvent) (timeout_ms : Nat) :
    Option (KEvent × WaitResult) :=
  if ev.signaled then
    some (if ev.manual_reset then ev else { ev with signaled := false },
      WaitResult.wait_object_0)
  else if timeout_ms = INFINITE then none
  else some (ev, WaitResult.wait_timeout)

/-- The timeout translation inside Win32Event.wait: `timeout_secs` equal to
`INFINITE` is passed through unchanged, any other value is multiplied by
1000 (seconds to milliseconds). -/
def win32TimeoutMs (timeout_secs : Nat) : Nat :=
  if timeout_secs = INFINITE then timeout_secs else 1000 * timeout_secs

/-- The raise logic at the end of Win32Event.wait: `WAIT_TIMEOUT` raises
`x_event_timeout`, `WAIT_ABANDONED` raises `x_event_abandoned`, anything
else returns `None`. -/
def waitCheckResult (result : WaitResult) : Except XEvent Unit :=
  if result = WaitResult.wait_timeout then
    Except.error XEvent.x_event_timeout
  else if result = WaitResult.wait_abandoned then
    Except.error XEvent.x_event_abandoned
  else Except.ok ()

/-- Win32Event.wait (timeout_secs=INFINITE): call `WaitForSingleObject`
with the translated timeout and apply the raise logic to its result.
`none` is the call that never returns. -/
def Win32Event.wait (ev : KEvent) (timeout_secs : Nat) :
    Option (KEvent × Except XEvent Unit) :=
  (WaitForSingleObject ev (win32TimeoutMs timeout_secs)).map
    (fun p => (p.1, waitCheckResult p.2))

/-- The try/except in Win32Event.is_set: the outcome of `self.wait (0)`
becomes `1` on a normal return and `0` on `x_event_timeout`; any other
exception (in particular `x_event_abandoned`) propagates. -/
def isSetCatch (r : Except XEvent Unit) : Except XEvent Bool :=
  match r with
  | Except.ok _ => Except.ok true
  | Except.error XEvent.x_event_timeout => Except.ok false
  | Except.error x => Except.error x

/-- Win32Event.is_set: `self.wait (0)` inside the try/except above.  The
zero-timeout wait always returns, and it carries the wait's state change
(an auto-reset signaled event is consumed by it). -/
def Win32Event.is_set (ev : KEvent) : Option (KEvent × Except XEvent Bool) :=
  (Win32Event.wait ev 0).map (fun p => (p.1, isSetCatch p.2))

/-- Win32Event.is_set as it behaves when the underlying zero-timeout
platform wait reports a given result code: the composition of the raise
logic of `wait` with the try/except of `is_set`. -/
def win32IsSetOnResult (r : WaitResult) : Except XEvent Bool :=
  isSetCatch (waitCheckResult r)

/-- Win32Event.set: `win32event.SetEvent (self.event)`. -/
def Win32Event.set (ev : KEvent) : KEvent := SetEvent ev

/-- Win32Event.reset as written in the source: it calls
`win32event.SetEvent (self.event)` (not ResetEvent). -/
def Win32Event.reset (ev : KEvent) : KEvent := SetEvent ev

/-- Win32Event.pulse: `win32event.PulseEvent (self.event)`. -/
def Win32Event.pulse (ev : KEvent) : KEvent := PulseEvent ev

/-! ### The OS named-object namespace and `Win32Event.__init__` -/

/-- The OS namespace of named event objects: an association of names to
live event objects. -/
def regFind : List (String × KEvent) → String → Option KEvent
  | [], _ => none
  | (n, ev) :: rest, name => if n = name then some ev else regFind rest name

/-- win32event.CreateEvent (None, manual_reset, initial_state, name) over
the named-object namespace: when the name already denotes a live object the
call returns a handle to that object and the `manual_reset` /
`initial_state` arguments are ignored; otherwise a new object is created
with them.  This is the platform contract Win32Event.__init__ relies on
("The first process to create the event determines its initial state and
manual reset"), with the handle identified by the name. -/
def CreateEvent (reg : List (String × KEvent)) (manual_reset : Bool)
    (initial_state : Bool) (name : String) : List (String × KEvent) :=
  match regFind reg name with
  | some _ => reg
  | none => (name, { manual_reset := manual_reset, signaled := initial_state }) :: reg

/-! ## `STOP_EVENT` and `EventHandler` -/

/-- STOP_EVENT = Event ("__STOP_EVENT_HANDLER"): created with the default
arguments, so `initial_state = 0` and `manual_reset = 0` (auto-reset). -/
def STOP_EVENT : KEvent := { manual_reset := false, signaled := false }

/-- A pool of `EventHandler` threads all constructed without an explicit
`stop_event`, hence all registered on the one shared stop event.  Each
handler is represented by its `finished` flag; a handler with
`finished = false` is blocked in the `WaitForMultipleObjects` call of its
`run` loop, one with `finished = true` has run its `_stop` callback and
left the loop. -/
structure HandlerPool where
  stop_event : KEvent
  finished : List Bool
deriving DecidableEq, Repr

/-- Release of the stop event to one blocked handler: the first handler
still in its wait loop wakes, and its `run` loop dispatches the `_stop`
callback, which sets `finished = 1`, ending that loop. -/
def releaseOne : List Bool → List Bool
  | [] => []
  | f :: rest => if f then f :: releaseOne rest else true :: rest

/-- Whether some handler of the pool is still blocked waiting. -/
def hasWaiter (fs : List Bool) : Bool := fs.any (fun f => !f)

/-- Delivery of a signaled stop event to the blocked handlers, following
the platform's multi-object wait semantics: a manual-reset event stays
signaled and releases every blocked waiter (each runs `_stop`); an
auto-reset event releases exactly one blocked waiter and reverts to
not-signaled, so the remaining handlers stay blocked. -/
def deliverStop (p : HandlerPool) : HandlerPool :=
  if p.stop_event.signaled ∧ hasWaiter p.finished then
    if p.stop_event.manual_reset then
      { p with finished := p.finished.map (fun _ => true) }
    else
      { stop_event := { p.stop_event with signaled := false }
        finished := releaseOne p.finished }
  else p

/-- Firing the shared stop event once (`STOP_EVENT.fire ()`, i.e.
`SetEvent`) and letting the blocked handlers react. -/
def fireStop (p : HandlerPool) : HandlerPool :=
  deliverStop { p with stop_event := SetEvent p.stop_event }

/-! ### The dispatch loop of a single `EventHandler` -/

/-- Which registered event satisfied one iteration's multi-object wait:
the action event (its callback is the user action) or the stop event (its
callback is the handler's `_stop`). -/
inductive Dispatch where
  | action
  | stop
deriving DecidableEq, Repr

/-- One iteration of EventHandler.run: the callback mapped to the event
that satisfied the wait runs on the handler's thread.  `_stop` executes
`self.finished = 1`; the user action does not touch `finished`. -/
def dispatchStep (finished : Bool) (d : Dispatch) : Bool :=
  match d with
  | Dispatch.stop => true
  | Dispatch.action => finished

/-- The `finished` flag after EventHandler.run has started
(`self.finished = 0`) and then dispatched the given sequence of events. -/
def runFinished (ds : List Dispatch) : Bool :=
  ds.foldl dispatchStep false

/-! ## Claim theorems -/

/-- A foldl characterization of the dispatch loop's `finished` flag: the
fold is true exactly when it started true or a stop dispatch occurs. -/
theorem runFinished_foldl (b : Bool) (ds : List Dispatch) :
    ds.foldl dispatchStep b = true ↔ b = true ∨ Dispatch.stop ∈ ds := by
  induction ds generalizing b with
  | nil => simp
  | cons d rest ih =>
    cases d with
    | action => simp [List.foldl_cons, dispatchStep, ih]
    | stop => simp [List.foldl_cons, dispatchStep, ih]

/-- C1: the claim says reset() leaves every event not-signaled, but the
source's Win32Event.reset calls SetEvent: on a not-signaled manual-reset
event, reset() leaves the event signaled and an immediate is_set() returns
true. -/
theorem win32Event_reset_signals_event :
    Win32Event.reset { manual_reset := true, signaled := false } =
      { manual_reset := true, signaled := true } ∧
    Win32Event.is_set
        (Win32Event.reset { manual_reset := true, signaled := false }) =
      some ({ manual_reset := true, signaled := true }, Except.ok true) := by
  constructor <;> rfl

/-- C2: the claim says wait on an already-signaled event returns without
raising, but PythonEvent.wait tests `self.event.wait (timeout_secs) is
None`, and threading.Event.wait of the contemporary Python returns None
unconditionally: on an event created signaled, wait(5) raises
x_event_timeout. -/
theorem pythonEvent_wait_raises_on_signaled :
    (pythonEventNew "evt" true false).is_set = true ∧
    (pythonEventNew "evt" true false).wait (some 5) =
      some (Except.error XEvent.x_event_timeout) := by
  constructor <;> rfl

/-- C3 counterexample: when the zero-timeout platform wait inside
Win32Event.is_set reports the object abandoned, the try/except catches only
x_event_timeout, so is_set raises x_event_abandoned instead of returning a
boolean. -/
theorem win32_is_set_on_abandoned_raises :
    win32IsSetOnResult WaitResult.wait_abandoned =
      Except.error XEvent.x_event_abandoned := by
  rfl

/-- C3 amended: is_set returns a boolean without raising whenever the
platform wait reports signaled or timed out — in particular always, under
the platform model in which event objects are never reported abandoned —
and PythonEvent.is_set never raises; but a reported abandoned result makes
Win32Event.is_set propagate x_event_abandoned. -/
theorem is_set_raises_only_on_abandoned :
    (∀ r : WaitResult, r ≠ WaitResult.wait_abandoned →
      ∃ b, win32IsSetOnResult r = Except.ok b) ∧
    (∀ ev : KEvent, ∃ ev2 b, Win32Event.is_set ev = some (ev2, Except.ok b)) ∧
    (∀ e : PythonEvent, (e.step PyOp.is_set).2 = PyObs.ret_bool e.is_set) := by
  refine ⟨?_, ?_, ?_⟩
  · intro r h
    cases r with
    | wait_object_0 => exact ⟨true, rfl⟩
    | wait_timeout => exact ⟨false, rfl⟩
    | wait_abandoned => exact absurd rfl h
  · intro ev
    obtain ⟨m, s⟩ := ev
    cases m <;> cases s
    · exact ⟨{ manual_reset := false, signaled := false }, false, rfl⟩
    · exact ⟨{ manual_reset := false, signaled := false }, true, rfl⟩
    · exact ⟨{ manual_reset := true, signaled := false }, false, rfl⟩
    · exact ⟨{ manual_reset := true, signaled := true }, true, rfl⟩
  · intro e
    rfl

theorem is_set_raises_only_on_abandoned_witness :
    ∃ b, win32IsSetOnResult WaitResult.wait_timeout = Except.ok b :=
  is_set_raises_only_on_abandoned.1 WaitResult.wait_timeout (by decide)

/-- C4 counterexample: Win32Event.is_set is a zero-timeout wait, and the
wait consumes an auto-reset signal: on a signaled auto-reset event, is_set
returns true but leaves the event not-signaled, so the state after is_set
differs from the state before. -/
theorem win32_is_set_consumes_auto_reset :
    Win32Event.is_set { manual_reset := false, signaled := true } =
      some ({ manual_reset := false, signaled := false }, Except.ok true) ∧
    ({ manual_reset := false, signaled := false } : KEvent) ≠
      { manual_reset := false, signaled := true } :=
  ⟨rfl, by decide⟩

/-- C4 amended: PythonEvent.is_set never changes the event's state, and
Win32Event.is_set preserves the state on manual-reset events and on
not-signaled events; but on a signaled auto-reset event it returns true and
consumes the signal, leaving the event not-signaled. -/
theorem is_set_state_preservation :
    (∀ e : PythonEvent, (e.step PyOp.is_set).1 = e) ∧
    (∀ ev : KEvent, ev.manual_reset = true ∨ ev.signaled = false →
      Win32Event.is_set ev = some (ev, Except.ok ev.signaled)) ∧
    Win32Event.is_set { manual_reset := false, signaled := true } =
      some ({ manual_reset := false, signaled := false }, Except.ok true) := by
  refine ⟨fun e => rfl, ?_, rfl⟩
  intro ev h
  obtain ⟨m, s⟩ := ev
  cases m with
  | true => cases s <;> rfl
  | false =>
    cases s with
    | false => rfl
    | true => rcases h with h | h <;> simp at h

theorem is_set_state_preservation_witness :
    Win32Event.is_set { manual_reset := true, signaled := true } =
      some ({ manual_reset := true, signaled := true }, Except.ok true) :=
  is_set_state_preservation.2.1
    { manual_reset := true, signaled := true } (Or.inl rfl)

/-- C5: the claim says firing the shared default stop event once stops
every handler constructed without an explicit stop event; but STOP_EVENT is
created with the default manual_reset = 0 (auto-reset), so one firing
releases exactly one of two blocked handlers and the signal is consumed:
the second handler's finished flag stays false.  Had STOP_EVENT been
manual-reset, the same firing would stop both. -/
theorem stop_event_fire_stops_only_first :
    fireStop { stop_event := STOP_EVENT, finished := [false, false] } =
      { stop_event := { manual_reset := false, signaled := false },
        finished := [true, false] } ∧
    fireStop
        { stop_event := { manual_reset := true, signaled := false },
          finished := [false, false] } =
      { stop_event := { manual_reset := true, signaled := true },
        finished := [true, true] } := by
  decide

/-- C6: a later CreateEvent on a name already denoting a live object
attaches to it and leaves the namespace unchanged — its manual_reset /
initial_state arguments are ignored; in particular after creating a named
event with initial_state = true and then constructing a second handle to
the same name with initial_state = false, the named object still has the
first creator's flags and is_set through the second handle returns true. -/
theorem named_event_first_creator_wins :
    (∀ (reg : List (String × KEvent)) (name : String) (m i : Bool),
      regFind reg name ≠ none → CreateEvent reg m i name = reg) ∧
    (∀ (name : String) (m1 m2 : Bool),
      regFind (CreateEvent (CreateEvent [] m1 true name) m2 false name) name =
        some { manual_reset := m1, signaled := true } ∧
      (Win32Event.is_set { manual_reset := m1, signaled := true }).map
          (fun p => p.2) = some (Except.ok true)) := by
  constructor
  · intro reg name m i h
    cases hr : regFind reg name with
    | none => exact absurd hr h
    | some ev => simp [CreateEvent, hr]
  · intro name m1 m2
    constructor
    · simp [CreateEvent, regFind]
    · cases m1 <;> rfl

theorem named_event_first_creator_wins_witness :
    CreateEvent [("e", { manual_reset := false, signaled := true })]
        true false "e" =
      [("e", { manual_reset := false, signaled := true })] :=
  named_event_first_creator_wins.1 _ "e" true false (by decide)

/-- C7: the handler's finished flag is false when the run loop starts
(`self.finished = 0`) and, over any sequence of dispatched events, it is
true exactly when a stop dispatch (the _stop callback) occurred; the user
action never sets it. -/
theorem finished_set_only_by_stop_path :
    runFinished [] = false ∧
    ∀ ds : List Dispatch, (runFinished ds = true ↔ Dispatch.stop ∈ ds) := by
  constructor
  · rfl
  · intro ds
    have h := runFinished_foldl false ds
    simpa [runFinished] using h

/-- C8: Win32Event.wait distinguishes the three timeout cases: a finite
timeout of n seconds is passed to the platform as 1000 * n milliseconds, a
timeout of 0 is a non-blocking probe (the wait always returns at once), and
the INFINITE sentinel is passed through unchanged and accepted without
error — on a signaled event the infinite wait returns normally, on a
never-signaled event it blocks indefinitely rather than failing. -/
theorem wait_timeout_translation :
    (∀ n : Nat, n ≠ INFINITE → win32TimeoutMs n = 1000 * n) ∧
    win32TimeoutMs 0 = 0 ∧
    win32TimeoutMs INFINITE = INFINITE ∧
    (∀ ev : KEvent, (Win32Event.wait ev 0).isSome = true) ∧
    (∀ ev : KEvent, ev.signaled = true →
      ∃ ev2, Win32Event.wait ev INFINITE = some (ev2, Except.ok ())) ∧
    (∀ ev : KEvent, ev.signaled = false →
      Win32Event.wait ev INFINITE = none) := by
  refine ⟨?_, by decide, by simp [win32TimeoutMs], ?_, ?_, ?_⟩
  · intro n h
    simp [win32TimeoutMs, h]
  · intro ev
    obtain ⟨m, s⟩ := ev
    cases m <;> cases s <;> decide
  · intro ev h
    refine ⟨if ev.manual_reset then ev else { ev with signaled := false }, ?_⟩
    simp [Win32Event.wait, WaitForSingleObject, win32TimeoutMs, h,
      waitCheckResult]
  · intro ev h
    simp [Win32Event.wait, WaitForSingleObject, win32TimeoutMs, h]

theorem wait_timeout_translation_witness :
    win32TimeoutMs 2 = 2000 ∧
    Win32Event.wait { manual_reset := true, signaled := false } INFINITE =
      none :=
  ⟨wait_timeout_translation.1 2 (by decide),
    wait_timeout_translation.2.2.2.2.2
      { manual_reset := true, signaled := false } rfl⟩

/-- C9: for both variants, pulse() on a not-signaled event followed
immediately by is_set() yields false: PythonEvent.pulse sets then clears
the flag, and Win32Event.pulse (PulseEvent) leaves the event not-signaled,
which the zero-timeout wait inside is_set reports as timed out. -/
theorem pulse_then_is_set_false :
    (∀ e : PythonEvent, e.is_set = false → e.pulse.is_set = false) ∧
    (∀ ev : KEvent, ev.signaled = false →
      Win32Event.is_set (Win32Event.pulse ev) =
        some (Win32Event.pulse ev, Except.ok false)) := by
  constructor
  · intro e _
    rfl
  · intro ev _
    obtain ⟨m, s⟩ := ev
    cases m <;> cases s <;> rfl

theorem pulse_then_is_set_false_witness :
    (pythonEventNew "p" false false).pulse.is_set = false ∧
    Win32Event.is_set
        (Win32Event.pulse { manual_reset := true, signaled := false }) =
      some (Win32Event.pulse { manual_reset := true, signaled := false },
        Except.ok false) :=
  ⟨pulse_then_is_set_false.1 _ rfl, pulse_then_is_set_false.2 _ rfl⟩

/-- C10: the in-process variant's observable behaviour is independent of
the manual_reset construction argument — PythonEvent.__init__ discards it,
so two events built with the same name and initial state but different
manual_reset values give identical observations on every operation
sequence; and the variant behaves as manual-reset: after set(), is_set()
stays true until reset(). -/
theorem pythonEvent_ignores_manual_reset :
    (∀ (name : String) (initial_state : Bool) (m1 m2 : Bool)
        (ops : List PyOp),
      (pythonEventNew name initial_state m1).run ops =
        (pythonEventNew name initial_state m2).run ops) ∧
    (∀ e : PythonEvent,
      e.set.is_set = true ∧ (e.set.step PyOp.is_set).1 = e.set ∧
        e.set.reset.is_set = false) := by
  exact ⟨fun name initial_state m1 m2 ops => rfl,
    fun e => ⟨rfl, rfl, rfl⟩⟩
